import Mathlib

/-!
Verification development for the todo-ai-chatbot frontend.

We shallowly embed the session-and-tool-dispatch bridge of the repository:
  * `src/src/services/api.js` (the `ApiService` class) as pure functions
    producing `ApiRequest` descriptions;
  * `src/src/components/ChatInterface.jsx` (`handleSubmit`, the tool-call
    dispatcher) as a pure turn function over an explicit chat state, with the
    environment (chat backend outcome, tool-request failures) passed in;
  * `src/src/lib/auth-react.ts` (`useSession`'s `checkSession`, `signIn.email`,
    `signUp.email`, `signOut`) as functions over an explicit auth state.

JavaScript value conventions used throughout: a JS string is falsy exactly
when it is empty, so `a || b` on optional strings is modelled by `jsOrStr`;
JS object fields that may be `undefined` are modelled with `JsVal.undef`
(dropped by `JSON.stringify`); object literals with a spread are modelled as
association lists where the LAST binding of a key wins (`bodyGet`).
Milliseconds (`setTimeout` delays) are `Nat`.
-/

namespace TodoChatbot

/-- A JSON-ish value appearing in a request body field: a string, JS `null`,
or JS `undefined` (the latter is dropped by `JSON.stringify`). -/
inductive JsVal where
  | str : String → JsVal
  | null : JsVal
  | undef : JsVal
deriving DecidableEq, Repr

/-- A JS object whose field values are plain strings (the shape of tool-call
`arguments` in the claims): an association list, last binding wins. -/
abbrev JsObj := List (String × String)

/-- Field lookup in a string-valued JS object: the last binding of the key,
if any (mirrors JS property access returning `undefined` when absent). -/
def objGet (o : JsObj) (k : String) : Option String :=
  (o.reverse.find? (fun p => p.1 = k)).map (·.2)

/-- Field lookup in a request body (JsVal-valued object), last binding wins:
models JS property access on an object literal built with spreads. -/
def bodyGet (o : List (String × JsVal)) (k : String) : Option JsVal :=
  (o.reverse.find? (fun p => p.1 = k)).map (·.2)

/-- JS `a || d` for an optional string `a` and defined default `d`:
`a` is used unless it is absent (`undefined`) or empty (falsy). -/
def jsOrStr (a : Option String) (d : String) : String :=
  match a with
  | some s => if s = "" then d else s
  | none => d

/-- JS `a || null` for an optional string: keeps `a` only when truthy. -/
def jsOrNull (a : Option String) : Option String :=
  match a with
  | some s => if s = "" then none else some s
  | none => none

/-- An optional string as a body field value: absent becomes `undefined`. -/
def optVal (a : Option String) : JsVal :=
  match a with
  | some s => JsVal.str s
  | none => JsVal.undef

/-- JS `String.prototype.trim()`: strips leading and trailing whitespace.
Defined over the character list so it computes by kernel reduction. -/
def jsTrim (s : String) : String :=
  ⟨((s.data.dropWhile Char.isWhitespace).reverse.dropWhile Char.isWhitespace).reverse⟩

/-- JS template-literal interpolation of a possibly-undefined string
(`${x}` prints `undefined` when `x` is `undefined`). -/
def interp (a : Option String) : String :=
  match a with
  | some s => s
  | none => "undefined"

/-- HTTP method of a request issued by `ApiService.request`. -/
inductive Method where
  | get : Method
  | post : Method
  | put : Method
  | delete : Method
deriving DecidableEq, Repr

/-- A request issued through `ApiService.request` in `src/src/services/api.js`:
the endpoint path (appended to the base URL) and the JSON body fields.
Requests with no body carry an empty field list. -/
structure ApiRequest where
  path : String
  method : Method
  body : List (String × JsVal)
deriving DecidableEq, Repr

/-- The fixed demo-user UUID constant appearing in `src/src/services/api.js`
(`'123e4567-e89b-12d3-a456-426614174000'`). -/
def demoUserUUID : String := "123e4567-e89b-12d3-a456-426614174000"

/-- `const actualUserId = userId || '123e4567-...'` as written in every
`ApiService` method: the UUID substitutes only for a falsy (empty) userId. -/
def actualUserId (userId : String) : String :=
  jsOrStr (some userId) demoUserUUID

/-- `ApiService.sendMessage(userId, message, conversationId)`:
`POST /api/{actualUserId}/chat` with body `{message, conversation_id}`. -/
def sendMessageRequest (userId message : String) (conversationId : Option String) : ApiRequest :=
  { path := "/api/" ++ actualUserId userId ++ "/chat"
    method := Method.post
    body := [("message", JsVal.str message),
             ("conversation_id", match conversationId with
               | some c => JsVal.str c
               | none => JsVal.null)] }

/-- `ApiService.createTask(userId, taskData)`:
`POST /api/{actualUserId}/tasks` with `taskData` as the JSON body. -/
def createTaskRequest (userId : String) (taskData : List (String × JsVal)) : ApiRequest :=
  { path := "/api/" ++ actualUserId userId ++ "/tasks"
    method := Method.post
    body := taskData }

/-- `ApiService.updateTask(userId, taskId, taskData)`:
`PUT /api/{actualUserId}/tasks/{taskId}` with `taskData` as the JSON body
(`taskId` is interpolated into the path, printing `undefined` when absent). -/
def updateTaskRequest (userId : String) (taskId : Option String)
    (taskData : List (String × JsVal)) : ApiRequest :=
  { path := "/api/" ++ actualUserId userId ++ "/tasks/" ++ interp taskId
    method := Method.put
    body := taskData }

/-- `ApiService.deleteTask(userId, taskId)`:
`DELETE /api/{actualUserId}/tasks/{taskId}` with no body. -/
def deleteTaskRequest (userId : String) (taskId : Option String) : ApiRequest :=
  { path := "/api/" ++ actualUserId userId ++ "/tasks/" ++ interp taskId
    method := Method.delete
    body := [] }

/-- A structured tool call from a chat response
(`{name, arguments?, parameters?}` in `ChatInterface.jsx`). -/
structure ToolCall where
  name : String
  arguments : Option JsObj
  parameters : Option JsObj
deriving DecidableEq, Repr

/-- `call.arguments || call.parameters || {}`: an object (even empty) is
truthy, so a present `arguments` wins outright. -/
def callArgs (c : ToolCall) : JsObj :=
  match c.arguments with
  | some a => a
  | none =>
    match c.parameters with
    | some p => p
    | none => []

/-- The single task-mutation request one arm of the `switch (call.name)` in
`ChatInterface.jsx` issues for a tool call, or `none` for an unrecognized
name (which falls through the switch without effect). -/
def toolCallRequest (userId : String) (c : ToolCall) : Option ApiRequest :=
  if c.name = "add_task" then
    let addArgs := callArgs c
    some (createTaskRequest userId
      [("title", JsVal.str (jsOrStr (objGet addArgs "title")
          (jsOrStr (objGet addArgs "task_title") "New Task"))),
       ("description", JsVal.str (jsOrStr (objGet addArgs "description") "")),
       ("priority", JsVal.str (jsOrStr (objGet addArgs "priority") "medium"))])
  else if c.name = "update_task" then
    let updateArgs := callArgs c
    some (updateTaskRequest userId (objGet updateArgs "task_id")
      [("title", optVal (objGet updateArgs "title")),
       ("description", optVal (objGet updateArgs "description")),
       ("priority", optVal (objGet updateArgs "priority")),
       ("status", optVal (objGet updateArgs "status"))])
  else if c.name = "complete_task" then
    let completeArgs := callArgs c
    some (updateTaskRequest userId (objGet completeArgs "task_id")
      (completeArgs.map (fun p => (p.1, JsVal.str p.2)) ++ [("status", JsVal.str "completed")]))
  else if c.name = "delete_task" then
    let deleteArgs := callArgs c
    some (deleteTaskRequest userId (objGet deleteArgs "task_id"))
  else
    none

/-- Sequential execution of the `for (const call of response.tool_calls)` loop:
each recognized call issues its request (awaited); if the environment makes
that request throw (`fails r = true`) the exception propagates to the outer
`catch`, aborting the loop. Returns the requests actually issued, in order,
and whether an exception escaped the loop. -/
def runToolCalls (fails : ApiRequest → Bool) (userId : String) :
    List ToolCall → List ApiRequest × Bool
  | [] => ([], false)
  | c :: rest =>
    match toolCallRequest userId c with
    | none => runToolCalls fails userId rest
    | some r =>
      if fails r then ([r], true)
      else
        let out := runToolCalls fails userId rest
        (r :: out.1, out.2)

/-- The authenticated user record synthesized by `signIn.email` /
`signUp.email` in `src/src/lib/auth-react.ts`. -/
structure AuthUser where
  id : String
  email : String
  name : String
deriving DecidableEq, Repr

/-- A chat message as held in `ChatInterface`'s `messages` state (the fields
the dispatcher reads; the `id`/`createdAt` fields are wall-clock derived and
not modelled). -/
structure ChatMessage where
  content : String
  role : String
  conversationId : Option String
deriving DecidableEq, Repr

/-- The component state `handleSubmit` reads and writes:
`messages`, `input`, `isLoading`. -/
structure ChatState where
  messages : List ChatMessage
  input : String
  isLoading : Bool
deriving DecidableEq, Repr

/-- The backend chat response
(`{response, conversation_id, tool_calls?}`). -/
structure ChatResponse where
  response : String
  conversation_id : String
  tool_calls : Option (List ToolCall)
deriving DecidableEq, Repr

/-- The environment of one chat turn: the outcome of
`apiService.sendMessage` (a response, or a thrown error), and which issued
tool requests throw. -/
structure TurnEnv where
  sendResult : Except Unit ChatResponse
  fails : ApiRequest → Bool

/-- The observable outcome of one `handleSubmit` run: the final component
state, the requests issued (the chat request first, then tool requests in
order), and the `setTimeout` delay with which `onTaskUpdate` was scheduled
(`some 500`) or `none` if it was not scheduled. -/
structure TurnResult where
  state : ChatState
  requests : List ApiRequest
  refreshDelay : Option Nat
deriving DecidableEq, Repr

/-- The error message appended in the `catch` block of `handleSubmit`. -/
def dispatchErrorMessage : ChatMessage :=
  { content := "Sorry, I encountered an error processing your request."
    role := "assistant"
    conversationId := none }

/-- `const userId = session?.user?.id || 'demo-user';` in
`ChatInterface.jsx` (the session holds at most one user). -/
def dispatchUserId (sessionUser : Option AuthUser) : String :=
  jsOrStr (sessionUser.map (·.id)) "demo-user"

/-- One full run of `handleSubmit` in `ChatInterface.jsx`, given the turn
environment, whether an `onTaskUpdate` callback prop was supplied, the
current session user, and the component state.

Mirrors the source line by line: the `!input.trim() || isLoading` guard;
`setIsLoading(true)`; appending the user message and clearing the input;
reading `conversationId` from the last message of the PRE-append `messages`
closure value; `apiService.sendMessage`; appending the assistant message;
the tool-call loop (`runToolCalls`); scheduling `onTaskUpdate` after 500ms
only when at least one tool call was present and none threw; the `catch`
appending `dispatchErrorMessage`; and the `finally` clearing `isLoading`. -/
def handleSubmit (env : TurnEnv) (onTaskUpdate : Bool)
    (sessionUser : Option AuthUser) (s : ChatState) : TurnResult :=
  if jsTrim s.input = "" ∨ s.isLoading then
    { state := s, requests := [], refreshDelay := none }
  else
    let userMessage : ChatMessage :=
      { content := s.input, role := "user", conversationId := none }
    let s1 : ChatState :=
      { messages := s.messages ++ [userMessage], input := "", isLoading := true }
    let userId := dispatchUserId sessionUser
    let conversationId := jsOrNull (s.messages.getLast?.bind (·.conversationId))
    let chatReq := sendMessageRequest userId s.input conversationId
    match env.sendResult with
    | Except.error _ =>
      { state := { s1 with messages := s1.messages ++ [dispatchErrorMessage],
                           isLoading := false }
        requests := [chatReq]
        refreshDelay := none }
    | Except.ok response =>
      let assistantMessage : ChatMessage :=
        { content := response.response, role := "assistant"
          conversationId := some response.conversation_id }
      let s2 : ChatState := { s1 with messages := s1.messages ++ [assistantMessage] }
      match response.tool_calls with
      | none =>
        { state := { s2 with isLoading := false }
          requests := [chatReq]
          refreshDelay := none }
      | some calls =>
        if calls.length > 0 then
          let out := runToolCalls env.fails userId calls
          if out.2 then
            { state := { s2 with messages := s2.messages ++ [dispatchErrorMessage],
                                 isLoading := false }
              requests := chatReq :: out.1
              refreshDelay := none }
          else
            { state := { s2 with isLoading := false }
              requests := chatReq :: out.1
              refreshDelay := if onTaskUpdate then some 500 else none }
        else
          { state := { s2 with isLoading := false }
            requests := [chatReq]
            refreshDelay := none }

/-- The module-level auth state of `src/src/lib/auth-react.ts` together with
its browser context: the persisted `localStorage` entry under the key
`'user'` (the serialized string, if present), the shared in-memory session
slot `_session` (holding at most one user), the `_loading` flag, and
`window.location.href`. -/
structure AuthState where
  storedUser : Option String
  session : Option AuthUser
  loading : Bool
  href : String
deriving DecidableEq, Repr

/-- `JSON.stringify` of the user object literal of `auth-react.ts`. -/
def stringifyUser (u : AuthUser) : String :=
  "\x7b\"id\":\"" ++ u.id ++ "\",\"email\":\"" ++ u.email ++
    "\",\"name\":\"" ++ u.name ++ "\"\x7d"

/-- The `checkSession` closure inside `useSession`, run on mount while
`_loading` holds: reads `localStorage.getItem('user')`; if present, tries
`JSON.parse` (abstracted as the `parse` argument, `none` meaning the parse
threw and was caught); a parse failure or an absent entry both end with a
null session and loading finished. Total: no error escapes to the caller. -/
def checkSession (parse : String → Option AuthUser) (s : AuthState) : AuthState :=
  match s.storedUser with
  | some str =>
    match parse str with
    | some u => { s with session := some u, loading := false }
    | none => { s with session := none, loading := false }
  | none => { s with session := none, loading := false }

/-- `generateUUID` in `auth-react.ts`: the fixed demo UUID constant. -/
def generateUUID : String := "123e4567-e89b-12d3-a456-426614174000"

/-- `signIn.email({email, password, redirect})`: synthesizes a user whose id
is `generateUUID` and whose name is `email.split('@')[0]`, persists its
JSON, fills the session slot, clears loading, optionally navigates to `/`;
returns the user. The `password` is accepted and ignored by the source. -/
def signIn.email (emailArg _password : String) (redirect : Bool)
    (s : AuthState) : AuthUser × AuthState :=
  let user : AuthUser :=
    { id := generateUUID, email := emailArg, name := (emailArg.splitOn "@").headD "" }
  (user,
    { storedUser := some (stringifyUser user)
      session := some user
      loading := false
      href := if redirect then "/" else s.href })

/-- `signUp.email({email, password, name, redirect})`: same as sign-in but
with the supplied `name`. -/
def signUp.email (emailArg _password nameArg : String) (redirect : Bool)
    (s : AuthState) : AuthUser × AuthState :=
  let user : AuthUser := { id := generateUUID, email := emailArg, name := nameArg }
  (user,
    { storedUser := some (stringifyUser user)
      session := some user
      loading := false
      href := if redirect then "/" else s.href })

/-- `signOut()`: `localStorage.removeItem('user')`, `_session = null`,
navigate to `/login` (the `_loading` flag is untouched by the source). -/
def signOut (s : AuthState) : AuthState :=
  { storedUser := none, session := none, loading := s.loading, href := "/login" }

/-! Concrete fixtures used by counterexamples and witnesses. -/

/-- A chat state with no prior messages and the pending input `"hi"`. -/
def exState : ChatState := { messages := [], input := "hi", isLoading := false }

/-- An `add_task` tool call supplying only a title. -/
def exAddCall (t : String) : ToolCall :=
  { name := "add_task", arguments := some [("title", t)], parameters := none }

/-- The create-task request the dispatcher issues for `exAddCall t` in the
no-session (demo-user) case. -/
def exAddRequest (t : String) : ApiRequest :=
  createTaskRequest "demo-user"
    [("title", JsVal.str t), ("description", JsVal.str ""),
     ("priority", JsVal.str "medium")]

/-- A chat response carrying three `add_task` tool calls. -/
def exRespThree : ChatResponse :=
  { response := "ok", conversation_id := "cv"
    tool_calls := some [exAddCall "A", exAddCall "B", exAddCall "C"] }

/-- Environment in which the chat call succeeds with `exRespThree` and
exactly the second tool call's API request throws. -/
def exEnvSecondFails : TurnEnv :=
  { sendResult := Except.ok exRespThree
    fails := fun q => decide (q = exAddRequest "B") }

/-- Environment in which `apiService.sendMessage` itself throws. -/
def exEnvSendFails : TurnEnv :=
  { sendResult := Except.error (), fails := fun _ => false }

/-- A chat response carrying a single `add_task` tool call. -/
def exRespOne : ChatResponse :=
  { response := "ok", conversation_id := "cv", tool_calls := some [exAddCall "A"] }

/-- Environment in which the chat call succeeds with `exRespOne` and no tool
request throws. -/
def exEnvOne : TurnEnv :=
  { sendResult := Except.ok exRespOne, fails := fun _ => false }

/-- The `add_task` tool call of the spec's create-task example:
`{name:"add_task", arguments:{title:"Buy milk"}}`. -/
def buyMilkCall : ToolCall :=
  { name := "add_task", arguments := some [("title", "Buy milk")], parameters := none }

/-- A chat response whose tool-call list is exactly `[buyMilkCall]`. -/
def exRespBuyMilk : ChatResponse :=
  { response := "ok", conversation_id := "cv", tool_calls := some [buyMilkCall] }

/-- Environment in which the chat call succeeds with `exRespBuyMilk` and no
tool request throws. -/
def exEnvBuyMilk : TurnEnv :=
  { sendResult := Except.ok exRespBuyMilk, fails := fun _ => false }

/-- A tool call whose name matches no arm of the dispatcher's switch. -/
def exUnknownCall : ToolCall :=
  { name := "create_report", arguments := some [("x", "1")], parameters := none }

/-- The demo user record. -/
def exUser : AuthUser :=
  { id := generateUUID, email := "demo@example.com", name := "demo" }

/-- An auth state whose persisted `'user'` entry is not valid JSON. -/
def exAuthMalformed : AuthState :=
  { storedUser := some "not valid json", session := some exUser
    loading := true, href := "/" }

/-- A `JSON.parse` abstraction that throws on every input. -/
def exParseFail : String → Option AuthUser := fun _ => none

/-! Helper lemmas. -/

/-- Looking up a key in an object built by spreading `l` and then binding the
key explicitly yields the explicit binding (last binding wins). -/
theorem bodyGet_concat (l : List (String × JsVal)) (k : String) (v : JsVal) :
    bodyGet (l ++ [(k, v)]) k = some v := by
  simp [bodyGet]

/-- Every request issued by the tool-call loop comes from some tool call of
the processed list. -/
theorem runToolCalls_mem (f : ApiRequest → Bool) (uid : String) :
    ∀ (cs : List ToolCall) (r : ApiRequest), r ∈ (runToolCalls f uid cs).1 →
      ∃ c, c ∈ cs ∧ toolCallRequest uid c = some r := by
  intro cs
  induction cs with
  | nil =>
    intro r hr
    simp [runToolCalls] at hr
  | cons c rest ih =>
    intro r hr
    simp only [runToolCalls] at hr
    cases hc : toolCallRequest uid c with
    | none =>
      rw [hc] at hr
      obtain ⟨c', hc', hreq⟩ := ih r hr
      exact ⟨c', List.mem_cons_of_mem _ hc', hreq⟩
    | some q =>
      rw [hc] at hr
      by_cases hf : f q = true
      · simp [hf] at hr
        subst hr
        exact ⟨c, List.mem_cons_self _ _, hc⟩
      · simp [hf] at hr
        cases hr with
        | inl h =>
          subst h
          exact ⟨c, List.mem_cons_self _ _, hc⟩
        | inr h =>
          obtain ⟨c', hc', hreq⟩ := ih r h
          exact ⟨c', List.mem_cons_of_mem _ hc', hreq⟩

/-- Every task-mutation request the dispatcher derives for the demo user has
a path below `/api/demo-user/`. -/
theorem toolCallRequest_demo_path (c : ToolCall) (r : ApiRequest)
    (h : toolCallRequest "demo-user" c = some r) :
    ∃ rest, r.path = "/api/demo-user/" ++ rest := by
  simp only [toolCallRequest] at h
  split_ifs at h
  · cases h
    exact ⟨"tasks", rfl⟩
  · cases h
    exact ⟨"tasks/" ++ interp (objGet (callArgs c) "task_id"), rfl⟩
  · cases h
    exact ⟨"tasks/" ++ interp (objGet (callArgs c) "task_id"), rfl⟩
  · cases h
    exact ⟨"tasks/" ++ interp (objGet (callArgs c) "task_id"), rfl⟩

/-! Claim theorems. -/

/-- C1 counterexample: with three `add_task` calls and the second one's API
request throwing, the third call's request is NOT issued — the dispatcher
does not continue past an individual tool-call failure, refuting the claim
as stated. -/
theorem c1_third_call_not_executed_cex :
    (handleSubmit exEnvSecondFails true none exState).requests =
      [sendMessageRequest "demo-user" "hi" none, exAddRequest "A", exAddRequest "B"] ∧
    exAddRequest "C" ∉ (handleSubmit exEnvSecondFails true none exState).requests :=
  ⟨by decide, by decide⟩

/-- C1 (amended): when the second of three tool calls fails, the first
call's request stays issued (no rollback), but the loop halts: the third
call is never executed, the error is caught (the error message is
appended) and no refresh is scheduled. -/
theorem c1_dispatch_halts_after_failed_call
    (env : TurnEnv) (onTaskUpdate : Bool) (sessionUser : Option AuthUser)
    (s : ChatState) (resp : ChatResponse) (c1 c2 c3 : ToolCall) (r1 r2 : ApiRequest)
    (hin : ¬ jsTrim s.input = "") (hld : s.isLoading = false)
    (hsend : env.sendResult = Except.ok resp)
    (htc : resp.tool_calls = some [c1, c2, c3])
    (h1 : toolCallRequest (dispatchUserId sessionUser) c1 = some r1)
    (h2 : toolCallRequest (dispatchUserId sessionUser) c2 = some r2)
    (hf1 : env.fails r1 = false) (hf2 : env.fails r2 = true) :
    (handleSubmit env onTaskUpdate sessionUser s).requests =
      [sendMessageRequest (dispatchUserId sessionUser) s.input
         (jsOrNull (s.messages.getLast?.bind (fun m => m.conversationId))), r1, r2] ∧
    r1 ∈ (handleSubmit env onTaskUpdate sessionUser s).requests ∧
    (handleSubmit env onTaskUpdate sessionUser s).refreshDelay = none ∧
    (handleSubmit env onTaskUpdate sessionUser s).state.messages.getLast? =
      some dispatchErrorMessage := by
  have hguard : ¬ (jsTrim s.input = "" ∨ s.isLoading = true) := by simp [hin, hld]
  have hrun : runToolCalls env.fails (dispatchUserId sessionUser) [c1, c2, c3] =
      ([r1, r2], true) := by
    simp [runToolCalls, h1, h2, hf1, hf2]
  refine ⟨?_, ?_, ?_, ?_⟩ <;>
    simp [handleSubmit, hguard, hsend, htc, hrun]

/-- Witness for C1 (amended) at the concrete three-call scenario. -/
theorem c1_dispatch_halts_after_failed_call_witness :
    (handleSubmit exEnvSecondFails true none exState).requests =
      [sendMessageRequest (dispatchUserId none) exState.input
         (jsOrNull (exState.messages.getLast?.bind (fun m => m.conversationId))),
       exAddRequest "A", exAddRequest "B"] ∧
    exAddRequest "A" ∈ (handleSubmit exEnvSecondFails true none exState).requests ∧
    (handleSubmit exEnvSecondFails true none exState).refreshDelay = none ∧
    (handleSubmit exEnvSecondFails true none exState).state.messages.getLast? =
      some dispatchErrorMessage :=
  c1_dispatch_halts_after_failed_call exEnvSecondFails true none exState exRespThree
    (exAddCall "A") (exAddCall "B") (exAddCall "C") (exAddRequest "A") (exAddRequest "B")
    (by decide) rfl rfl rfl rfl rfl (by decide) (by decide)

/-- C2 counterexample: with no session user, the chat and create-task
endpoint paths use the string `demo-user`, not the UUID-shaped placeholder
constant, refuting the claim as stated. -/
theorem c2_placeholder_not_uuid_cex :
    (handleSubmit exEnvOne true none exState).requests =
      [sendMessageRequest "demo-user" "hi" none, exAddRequest "A"] ∧
    (sendMessageRequest "demo-user" "hi" none).path = "/api/demo-user/chat" ∧
    (exAddRequest "A").path = "/api/demo-user/tasks" ∧
    "/api/demo-user/chat" ≠ "/api/" ++ demoUserUUID ++ "/chat" ∧
    "/api/demo-user/tasks" ≠ "/api/" ++ demoUserUUID ++ "/tasks" :=
  ⟨by decide, rfl, rfl, by decide, by decide⟩

/-- C2 (amended): for every chat submission with no session user id, the
acting identity in every endpoint path issued during the turn is the fixed
string `demo-user` (the dispatcher's own fallback, which shadows the UUID
fallback inside `ApiService`): every issued request path sits under
`/api/demo-user/`. -/
theorem c2_fallback_identity_demo_user (env : TurnEnv) (onTaskUpdate : Bool)
    (s : ChatState) (r : ApiRequest)
    (hr : r ∈ (handleSubmit env onTaskUpdate none s).requests) :
    ∃ rest, r.path = "/api/demo-user/" ++ rest := by
  simp only [handleSubmit] at hr
  by_cases hguard : jsTrim s.input = "" ∨ s.isLoading = true
  · rw [if_pos hguard] at hr
    simp at hr
  · rw [if_neg hguard] at hr
    cases hsend : env.sendResult with
    | error e =>
      rw [hsend] at hr
      simp at hr
      subst hr
      exact ⟨"chat", rfl⟩
    | ok resp =>
      rw [hsend] at hr
      dsimp only at hr
      cases htc : resp.tool_calls with
      | none =>
        rw [htc] at hr
        simp at hr
        subst hr
        exact ⟨"chat", rfl⟩
      | some calls =>
        rw [htc] at hr
        dsimp only at hr
        by_cases hlen : calls.length > 0
        · rw [if_pos hlen] at hr
          split at hr <;>
          · rcases List.mem_cons.mp hr with h | h
            · subst h
              exact ⟨"chat", rfl⟩
            · obtain ⟨c, _, hreq⟩ := runToolCalls_mem _ _ _ _ h
              exact toolCallRequest_demo_path c r hreq
        · rw [if_neg hlen] at hr
          simp at hr
          subst hr
          exact ⟨"chat", rfl⟩

/-- Witness for C2 (amended): the chat request of a no-session turn sits
under `/api/demo-user/`. -/
theorem c2_fallback_identity_demo_user_witness :
    ∃ rest, (sendMessageRequest "demo-user" "hi" none).path = "/api/demo-user/" ++ rest :=
  c2_fallback_identity_demo_user exEnvSendFails true exState
    (sendMessageRequest "demo-user" "hi" none) (by decide)

/-- C3: a chat response whose tool-call list is exactly the `add_task` call
with `title = "Buy milk"` makes the dispatcher issue exactly one
create-task request, whose body carries the title together with the
defaults `description = ""` and `priority = "medium"`. -/
theorem c3_add_task_defaults (env : TurnEnv) (onTaskUpdate : Bool)
    (sessionUser : Option AuthUser) (s : ChatState) (resp : ChatResponse)
    (hin : ¬ jsTrim s.input = "") (hld : s.isLoading = false)
    (hsend : env.sendResult = Except.ok resp)
    (htc : resp.tool_calls = some [buyMilkCall]) :
    (handleSubmit env onTaskUpdate sessionUser s).requests =
      [sendMessageRequest (dispatchUserId sessionUser) s.input
         (jsOrNull (s.messages.getLast?.bind (fun m => m.conversationId))),
       createTaskRequest (dispatchUserId sessionUser)
         [("title", JsVal.str "Buy milk"), ("description", JsVal.str ""),
          ("priority", JsVal.str "medium")]] := by
  have hguard : ¬ (jsTrim s.input = "" ∨ s.isLoading = true) := by simp [hin, hld]
  have hcall : toolCallRequest (dispatchUserId sessionUser) buyMilkCall =
      some (createTaskRequest (dispatchUserId sessionUser)
        [("title", JsVal.str "Buy milk"), ("description", JsVal.str ""),
         ("priority", JsVal.str "medium")]) := rfl
  have hrun : runToolCalls env.fails (dispatchUserId sessionUser) [buyMilkCall] =
      ([createTaskRequest (dispatchUserId sessionUser)
          [("title", JsVal.str "Buy milk"), ("description", JsVal.str ""),
           ("priority", JsVal.str "medium")]],
       env.fails (createTaskRequest (dispatchUserId sessionUser)
          [("title", JsVal.str "Buy milk"), ("description", JsVal.str ""),
           ("priority", JsVal.str "medium")])) := by
    cases hf : env.fails (createTaskRequest (dispatchUserId sessionUser)
        [("title", JsVal.str "Buy milk"), ("description", JsVal.str ""),
         ("priority", JsVal.str "medium")]) <;>
      simp [runToolCalls, hcall, hf]
  simp only [handleSubmit]
  rw [if_neg hguard, hsend]
  dsimp only
  rw [htc]
  dsimp only
  rw [if_pos (by simp), hrun]
  split <;> rfl

/-- Witness for C3 at the concrete Buy-milk environment. -/
theorem c3_add_task_defaults_witness :
    (handleSubmit exEnvBuyMilk true none exState).requests =
      [sendMessageRequest (dispatchUserId none) exState.input
         (jsOrNull (exState.messages.getLast?.bind (fun m => m.conversationId))),
       createTaskRequest (dispatchUserId none)
         [("title", JsVal.str "Buy milk"), ("description", JsVal.str ""),
          ("priority", JsVal.str "medium")]] :=
  c3_add_task_defaults exEnvBuyMilk true none exState exRespBuyMilk
    (by decide) rfl rfl rfl

/-- C6: with a refresh callback supplied, it is scheduled with a 500ms
delay if and only if the chat response carries a non-empty tool-call list
and the loop processed every call without a thrown error; in particular a
response with absent or empty tool calls never schedules it. -/
theorem c6_refresh_iff_tool_calls_succeed (env : TurnEnv)
    (sessionUser : Option AuthUser) (s : ChatState) (resp : ChatResponse)
    (hin : ¬ jsTrim s.input = "") (hld : s.isLoading = false)
    (hsend : env.sendResult = Except.ok resp) :
    ((handleSubmit env true sessionUser s).refreshDelay = some 500 ↔
      ∃ calls, resp.tool_calls = some calls ∧ calls ≠ [] ∧
        (runToolCalls env.fails (dispatchUserId sessionUser) calls).2 = false) := by
  have hguard : ¬ (jsTrim s.input = "" ∨ s.isLoading = true) := by simp [hin, hld]
  simp only [handleSubmit]
  rw [if_neg hguard, hsend]
  dsimp only
  cases htc : resp.tool_calls with
  | none => simp
  | some calls =>
    cases calls with
    | nil => simp [runToolCalls]
    | cons c cs =>
      dsimp only
      rw [if_pos (by simp)]
      cases herr : (runToolCalls env.fails (dispatchUserId sessionUser) (c :: cs)).2 with
      | false => simp [herr]
      | true => simp [herr]

/-- Witness for C6 at the concrete single-call environment. -/
theorem c6_refresh_iff_tool_calls_succeed_witness :
    ((handleSubmit exEnvOne true none exState).refreshDelay = some 500 ↔
      ∃ calls, exRespOne.tool_calls = some calls ∧ calls ≠ [] ∧
        (runToolCalls exEnvOne.fails (dispatchUserId none) calls).2 = false) :=
  c6_refresh_iff_tool_calls_succeed exEnvOne none exState exRespOne
    (by decide) rfl rfl

/-- C4: every `complete_task` tool call, whatever fields its arguments
supply (including a supplied `status`), yields exactly the update request
targeting the `task_id` from its arguments, whose body spreads the
arguments and then forces `status` to `"completed"`; looking up `status`
in that body therefore always gives `"completed"`. -/
theorem c4_complete_task_forces_completed (uid : String) (args : JsObj)
    (params : Option JsObj) :
    toolCallRequest uid { name := "complete_task", arguments := some args, parameters := params } =
      some (updateTaskRequest uid (objGet args "task_id")
        (args.map (fun p => (p.1, JsVal.str p.2)) ++ [("status", JsVal.str "completed")])) ∧
    bodyGet (updateTaskRequest uid (objGet args "task_id")
        (args.map (fun p => (p.1, JsVal.str p.2)) ++ [("status", JsVal.str "completed")])).body
      "status" = some (JsVal.str "completed") :=
  ⟨rfl, bodyGet_concat _ _ _⟩

/-- C5: a tool call whose name is none of `add_task`, `update_task`,
`complete_task`, `delete_task` issues no task-mutation request and raises
no error: the loop treats it exactly like an absent entry. -/
theorem c5_unknown_tool_ignored (uid : String) (c : ToolCall)
    (f : ApiRequest → Bool) (rest : List ToolCall)
    (h : c.name ∉ ["add_task", "update_task", "complete_task", "delete_task"]) :
    toolCallRequest uid c = none ∧
    runToolCalls f uid (c :: rest) = runToolCalls f uid rest := by
  simp only [List.mem_cons, List.mem_singleton, not_or] at h
  obtain ⟨h1, h2, h3, h4⟩ := h
  have hnone : toolCallRequest uid c = none := by
    simp [toolCallRequest, h1, h2, h3, h4]
  exact ⟨hnone, by simp [runToolCalls, hnone]⟩

/-- Witness for C5 at the concrete unrecognized tool name
`"create_report"`. -/
theorem c5_unknown_tool_ignored_witness :
    toolCallRequest "demo-user" exUnknownCall = none ∧
    runToolCalls (fun _ => false) "demo-user" [exUnknownCall] =
      runToolCalls (fun _ => false) "demo-user" [] :=
  c5_unknown_tool_ignored "demo-user" exUnknownCall (fun _ => false) [] (by decide)

/-- C7: a submission attempted with empty-after-trim input or while a prior
submission is still sending returns immediately: no request is issued, no
message is appended, no state changes, and no refresh is scheduled. -/
theorem c7_guard_no_op (env : TurnEnv) (onTaskUpdate : Bool)
    (sessionUser : Option AuthUser) (s : ChatState)
    (h : jsTrim s.input = "" ∨ s.isLoading = true) :
    handleSubmit env onTaskUpdate sessionUser s =
      { state := s, requests := [], refreshDelay := none } := by
  simp only [handleSubmit]
  rw [if_pos h]

/-- Witness for C7: a duplicate submission while `isLoading` holds is a
no-op. -/
theorem c7_guard_no_op_witness :
    handleSubmit exEnvOne true none { messages := [], input := "hi", isLoading := true } =
      { state := { messages := [], input := "hi", isLoading := true },
        requests := [], refreshDelay := none } :=
  c7_guard_no_op exEnvOne true none
    { messages := [], input := "hi", isLoading := true } (Or.inr rfl)

/-- C8: when the persisted record is present but fails parsing, the session
check ends logged out with loading finished (and, being a total function,
raises nothing to the caller); an absent record likewise ends logged out
with loading finished. -/
theorem c8_malformed_session_fails_open (parse : String → Option AuthUser)
    (s : AuthState) :
    (∀ str, s.storedUser = some str → parse str = none →
      (checkSession parse s).session = none ∧ (checkSession parse s).loading = false) ∧
    (s.storedUser = none →
      (checkSession parse s).session = none ∧ (checkSession parse s).loading = false) := by
  constructor
  · intro str hst hp
    simp [checkSession, hst, hp]
  · intro hst
    simp [checkSession, hst]

/-- Witness for C8 at a concrete malformed persisted record. -/
theorem c8_malformed_session_fails_open_witness :
    (checkSession exParseFail exAuthMalformed).session = none ∧
    (checkSession exParseFail exAuthMalformed).loading = false :=
  (c8_malformed_session_fails_open exParseFail exAuthMalformed).1 "not valid json" rfl rfl

/-- C9: from any prior state, sign-out removes the persisted entry and
nulls the in-memory session slot, and signing out twice gives the same
final state as signing out once. -/
theorem c9_signout_idempotent (s : AuthState) :
    (signOut s).storedUser = none ∧ (signOut s).session = none ∧
    signOut (signOut s) = signOut s :=
  ⟨rfl, rfl, rfl⟩

/-- C10: every sign-in returns a user with the fixed id
`123e4567-e89b-12d3-a456-426614174000` and the part of the email before the
first `@` as name; sign-up returns the same fixed id with the supplied
name; two sign-ins with different emails yield the same id. -/
theorem c10_fixed_identity (em pw : String) (red : Bool) (s : AuthState)
    (em2 pw2 nm : String) (red2 : Bool) (s2 : AuthState) :
    (signIn.email em pw red s).1.id = "123e4567-e89b-12d3-a456-426614174000" ∧
    (signIn.email em pw red s).1.name = (em.splitOn "@").headD "" ∧
    (signUp.email em2 pw2 nm red2 s2).1.id = "123e4567-e89b-12d3-a456-426614174000" ∧
    (signUp.email em2 pw2 nm red2 s2).1.name = nm ∧
    (signIn.email em pw red s).1.id = (signIn.email em2 pw2 red2 s2).1.id :=
  ⟨rfl, rfl, rfl, rfl, rfl⟩

end TodoChatbot
